import Mathlib

/-!
Verification of the MediMindPlus compliance/security monitoring subsystem.

Shallow embedding of `src/compliance/monitoring/compliance_monitor.py` and
`src/compliance/security/tools/security-monitoring-implementation.py`.
Timestamps are modelled as natural numbers of seconds (UTC epoch); Python
dictionaries of evidence are modelled as association lists of strings;
check functions, which in the source read external database state and may
raise, are modelled as an environment mapping a check-function name to a
function from the parameter bag to an exception-or-result value.
-/

namespace MediMind

/-- Evidence or details payload: a Python dict modelled as a key-value list. -/
abbrev Evidence := List (String × String)

/-- Supported compliance frameworks, from the ComplianceFramework enum. -/
inductive ComplianceFramework
  | hipaa
  | sox
  | gdpr
  | iso27001
  | nist
deriving DecidableEq

/-- Compliance violation severity levels, from the ViolationSeverity enum. -/
inductive ViolationSeverity
  | low
  | medium
  | high
  | critical
deriving DecidableEq

/-- Compliance status values, from the ComplianceStatus enum. The source name
of the third constructor is PARTIALLY_COMPLIANT; it is shortened here. -/
inductive ComplianceStatus
  | compliant
  | nonCompliant
  | partlyCompliant
  | unknown
deriving DecidableEq

/-- Individual compliance rule definition, from the ComplianceRule dataclass. -/
structure ComplianceRule where
  rule_id : String
  framework : ComplianceFramework
  category : String
  title : String
  description : String
  severity : ViolationSeverity
  check_function : String
  parameters : Evidence := []
  enabled : Bool := true
  frequency : String := "daily"
deriving DecidableEq

/-- Compliance violation record, from the ComplianceViolation dataclass. -/
structure ComplianceViolation where
  violation_id : String
  rule_id : String
  framework : ComplianceFramework
  severity : ViolationSeverity
  title : String
  description : String
  details : Evidence
  detected_at : Nat
  resolved_at : Option Nat := none
  resolved_by : Option String := none
  status : String := "open"
deriving DecidableEq

/-- Audit event for compliance tracking, from the AuditEvent dataclass. -/
structure AuditEvent where
  event_id : String
  event_type : String
  user_id : Option String
  resource : String
  action : String
  timestamp : Nat
  source_ip : String
  user_agent : Option String
  result : String
  details : Evidence := []
deriving DecidableEq

/-- Mutable monitor state touched by violation handling: the persisted
violation rows, the dispatched notifications, the per-framework counters
(a defaultdict of ints, modelled as an association list defaulting to 0),
and a fresh-id counter. The source generates violation ids from wall-clock
time and an md5 digest; the id supply is modelled as this counter. -/
structure MonitorState where
  stored_violations : List ComplianceViolation
  notified_violations : List ComplianceViolation
  violation_counts : List (ComplianceFramework × Nat)
  next_id : Nat
deriving DecidableEq

/-- The empty initial monitor state. -/
def monState0 : MonitorState := ⟨[], [], [], 0⟩

/-- Increment the count for a framework in the defaultdict of counters. -/
def bumpCount : List (ComplianceFramework × Nat) → ComplianceFramework →
    List (ComplianceFramework × Nat)
  | [], fw => [(fw, 1)]
  | (g, n) :: rest, fw =>
    if g = fw then (g, n + 1) :: rest else (g, n) :: bumpCount rest fw

/-- Modelled from the spec: the method named in the source as the violation
store is referenced by the violation handler but absent from the sources;
per the spec the handler persists the violation, modelled as appending a
row to the stored list. -/
def storeViolation (s : MonitorState) (v : ComplianceViolation) : MonitorState :=
  { s with stored_violations := s.stored_violations ++ [v] }

/-- Handle a compliance violation: store it, send a notification when the
severity is HIGH or CRITICAL, bump the per-framework counter, and log.
Mirrors the violation handler of the compliance monitor; a notification
dispatch is recorded by appending the violation to the notified list. -/
def handleViolation (s : MonitorState) (v : ComplianceViolation) : MonitorState :=
  let s1 := storeViolation s v
  let s2 :=
    if v.severity = ViolationSeverity.high ∨ v.severity = ViolationSeverity.critical then
      { s1 with notified_violations := s1.notified_violations ++ [v] }
    else s1
  { s2 with violation_counts := bumpCount s2.violation_counts v.framework }

/-- Environment of check functions: maps a check-function name to a function
from the parameter bag to either a raised exception message or the returned
pair of the compliance flag and the evidence dict. Absence of the name
models the failed getattr lookup. -/
def ChecksEnv := String → Option (Evidence → Except String (Bool × Evidence))

/-- Execute an individual compliance rule check: look the check function up
by name (a missing name raises a ValueError in the source, modelled as an
error) and apply it to the parameter bag of the rule. -/
def executeRuleCheck (env : ChecksEnv) (rule : ComplianceRule) :
    Except String (Bool × Evidence) :=
  match env rule.check_function with
  | none => Except.error ("Check function " ++ rule.check_function ++ " not found")
  | some f => f rule.parameters

/-- Violation id generated from the fresh-id counter standing in for the
time-and-md5 id generator of the source. -/
def genViolationId (n : Nat) : String := "viol_" ++ toString n

/-- Build a violation record for a failed rule check. -/
def mkViolation (vid : String) (rule : ComplianceRule) (fw : ComplianceFramework)
    (details : Evidence) (now : Nat) : ComplianceViolation :=
  ⟨vid, rule.rule_id, fw, rule.severity, rule.title, rule.description,
    details, now, none, none, "open"⟩

/-- The per-rule loop of the framework compliance check: for each rule,
execute the check inside a try block; a raised exception is logged and the
rule skipped; a compliant result bumps the tally; a non-compliant result
appends a violation to the result list and hands it to the handler. -/
def cfcLoop (env : ChecksEnv) (fw : ComplianceFramework) (now : Nat) :
    List ComplianceRule → Nat → List ComplianceViolation → MonitorState →
    Nat × List ComplianceViolation × MonitorState
  | [], c, vs, s => (c, vs, s)
  | rule :: rest, c, vs, s =>
    match executeRuleCheck env rule with
    | Except.error _ => cfcLoop env fw now rest c vs s
    | Except.ok (true, _) => cfcLoop env fw now rest (c + 1) vs s
    | Except.ok (false, details) =>
      let v := mkViolation (genViolationId s.next_id) rule fw details now
      cfcLoop env fw now rest c (vs ++ [v])
        (handleViolation { s with next_id := s.next_id + 1 } v)

/-- The enabled rules of a framework, as filtered at the top of the
framework compliance check. -/
def enabledRulesFor (rules : List ComplianceRule) (fw : ComplianceFramework) :
    List ComplianceRule :=
  rules.filter (fun r => decide (r.framework = fw) && r.enabled)

/-- Framework status from the tally: the compliance percentage is the exact
ratio of compliant to total rules; 100 percent is COMPLIANT, at least 0.8
is PARTIALLY_COMPLIANT, anything lower NON_COMPLIANT. -/
def statusOf (compliant total : Nat) : ComplianceStatus :=
  let pct : ℚ := (compliant : ℚ) / (total : ℚ)
  if pct = 1 then ComplianceStatus.compliant
  else if pct ≥ 8 / 10 then ComplianceStatus.partlyCompliant
  else ComplianceStatus.nonCompliant

/-- Result dict of the framework compliance check. -/
structure FrameworkResults where
  framework : ComplianceFramework
  total_rules : Nat
  compliant_rules : Nat
  violations : List ComplianceViolation
  status : ComplianceStatus
deriving DecidableEq

/-- Check compliance for a specific framework: run the rule loop over the
enabled rules of the framework, then divide the tally by the total to
classify. With zero enabled rules the division raises a ZeroDivisionError,
modelled as the error result. -/
def checkFrameworkCompliance (env : ChecksEnv) (rules : List ComplianceRule)
    (fw : ComplianceFramework) (now : Nat) (s : MonitorState) :
    Except String (FrameworkResults × MonitorState) :=
  let frameworkRules := enabledRulesFor rules fw
  let out := cfcLoop env fw now frameworkRules 0 [] s
  if frameworkRules.length = 0 then Except.error "division by zero"
  else
    Except.ok (⟨fw, frameworkRules.length, out.1, out.2.1,
      statusOf out.1 frameworkRules.length⟩, out.2.2)

/-- The frameworks checked by a compliance check call: the given framework
when there is one, otherwise every member of the enum in declaration
order. -/
def checkedFrameworks : Option ComplianceFramework → List ComplianceFramework
  | some fw => [fw]
  | none => [ComplianceFramework.hipaa, ComplianceFramework.sox,
      ComplianceFramework.gdpr, ComplianceFramework.iso27001,
      ComplianceFramework.nist]

/-- Overall-status update applied per framework inside the compliance
check: NON_COMPLIANT wins outright; PARTIALLY_COMPLIANT downgrades an
overall status that is still COMPLIANT. -/
def updateOverall (overall st : ComplianceStatus) : ComplianceStatus :=
  if st = ComplianceStatus.nonCompliant then ComplianceStatus.nonCompliant
  else if st = ComplianceStatus.partlyCompliant ∧ overall = ComplianceStatus.compliant then
    ComplianceStatus.partlyCompliant
  else overall

/-- Result dict of the comprehensive compliance check. -/
structure ComplianceResults where
  frameworks : List (ComplianceFramework × FrameworkResults)
  overall_status : ComplianceStatus
  violations : List ComplianceViolation
  recommendations : List String
deriving DecidableEq

/-- The per-framework loop of the comprehensive compliance check; any
exception from a framework check propagates (the source catches, logs and
re-raises). -/
def ccLoop (env : ChecksEnv) (rules : List ComplianceRule) (now : Nat) :
    List ComplianceFramework → ComplianceStatus →
    List (ComplianceFramework × FrameworkResults) → List ComplianceViolation →
    MonitorState →
    Except String (ComplianceStatus × List (ComplianceFramework × FrameworkResults) ×
      List ComplianceViolation × MonitorState)
  | [], overall, frs, vs, s => Except.ok (overall, frs, vs, s)
  | fw :: rest, overall, frs, vs, s =>
    match checkFrameworkCompliance env rules fw now s with
    | Except.error e => Except.error e
    | Except.ok (fr, s1) =>
      ccLoop env rules now rest (updateOverall overall fr.status)
        (frs ++ [(fw, fr)]) (vs ++ fr.violations) s1

/-- Perform the comprehensive compliance check over the requested
frameworks. The recommendation generator is referenced by the source but
absent from it; modelled from the spec as a caller-supplied function of the
collected violations. The result store is likewise absent and its effect
is outside the modelled state. -/
def checkCompliance (env : ChecksEnv) (rules : List ComplianceRule)
    (recs : List ComplianceViolation → List String)
    (fwOpt : Option ComplianceFramework) (now : Nat) (s : MonitorState) :
    Except String (ComplianceResults × MonitorState) :=
  match ccLoop env rules now (checkedFrameworks fwOpt)
      ComplianceStatus.compliant [] [] s with
  | Except.error e => Except.error e
  | Except.ok (overall, frs, vs, s1) => Except.ok (⟨frs, overall, vs, recs vs⟩, s1)

/-- The five compliance rules registered at startup by the rule loader. -/
def defaultRules : List ComplianceRule :=
  [⟨"hipaa_001", ComplianceFramework.hipaa, "Technical Safeguards",
      "Data Encryption at Rest", "All ePHI must be encrypted at rest",
      ViolationSeverity.high, "check_encryption_at_rest", [], true, "daily"⟩,
    ⟨"hipaa_002", ComplianceFramework.hipaa, "Administrative Safeguards",
      "Access Logging", "All access to ePHI must be logged",
      ViolationSeverity.high, "check_access_logging", [], true, "daily"⟩,
    ⟨"hipaa_003", ComplianceFramework.hipaa, "Administrative Safeguards",
      "User Access Reviews", "Regular review of user access rights",
      ViolationSeverity.medium, "check_user_access_reviews", [], true, "daily"⟩,
    ⟨"gdpr_001", ComplianceFramework.gdpr, "Data Protection",
      "Data Retention Policy", "Personal data must not be kept longer than necessary",
      ViolationSeverity.high, "check_data_retention_policy", [], true, "daily"⟩,
    ⟨"gdpr_002", ComplianceFramework.gdpr, "Consent Management",
      "Valid Consent", "All data processing must have valid consent",
      ViolationSeverity.high, "check_consent_management", [], true, "daily"⟩]

/-- Association lookup in a string-keyed dict modelled as a list. -/
def lcLookup : List (String × Nat) → String → Option Nat
  | [], _ => none
  | (k, t) :: rest, key => if k = key then some t else lcLookup rest key

/-- Association update in a string-keyed dict modelled as a list. -/
def lcSet : List (String × Nat) → String → Nat → List (String × Nat)
  | [], key, t => [(key, t)]
  | (k, u) :: rest, key, t =>
    if k = key then (k, t) :: rest else (k, u) :: lcSet rest key t

/-- Whether a rule check is due, as decided by the scheduled-checks loop: a
rule with no recorded last check is due; otherwise the elapsed whole days
since the last check are compared against 1, 7 or 30 for daily, weekly or
monthly frequency; any other frequency string leaves the flag false. -/
def checkDue (frequency : String) (last : Option Nat) (current : Nat) : Bool :=
  match last with
  | none => true
  | some t =>
    if frequency = "daily" then decide (1 ≤ (current - t) / 86400)
    else if frequency = "weekly" then decide (7 ≤ (current - t) / 86400)
    else if frequency = "monthly" then decide (30 ≤ (current - t) / 86400)
    else false

/-- State threaded through the scheduled-checks loop: the per-rule last
check times and the violation-handling state. -/
structure SchedState where
  last_check_times : List (String × Nat)
  mon : MonitorState
deriving DecidableEq

/-- The empty initial scheduler state. -/
def schedState0 : SchedState := ⟨[], monState0⟩

/-- Process a single rule inside one scheduled-checks tick: skip a rule
that is not enabled or not due; otherwise execute the check; on a raised
exception the failure is logged and nothing is updated; on a returned
result the last check time of the rule is set to the current tick time,
and a non-compliant result additionally produces and handles a violation.
The returned flag records whether the rule was evaluated on this tick. -/
def processRule (env : ChecksEnv) (now : Nat) (s : SchedState)
    (rule : ComplianceRule) : SchedState × Bool :=
  if rule.enabled = false then (s, false)
  else if checkDue rule.frequency (lcLookup s.last_check_times rule.rule_id) now then
    match executeRuleCheck env rule with
    | Except.error _ => (s, true)
    | Except.ok (isCompliant, details) =>
      let s1 : SchedState :=
        { s with last_check_times := lcSet s.last_check_times rule.rule_id now }
      if isCompliant then (s1, true)
      else
        let v := mkViolation (genViolationId s1.mon.next_id) rule rule.framework details now
        ({ s1 with
            mon := handleViolation { s1.mon with next_id := s1.mon.next_id + 1 } v }, true)
  else (s, false)

/-- One tick of the scheduled-checks loop over the rule registry, returning
the updated state and the ids of the rules evaluated on this tick. -/
def scheduledTick (env : ChecksEnv) (now : Nat) :
    List ComplianceRule → SchedState → SchedState × List String
  | [], s => (s, [])
  | rule :: rest, s =>
    let step := processRule env now s rule
    let tail := scheduledTick env now rest step.1
    (tail.1, (if step.2 then [rule.rule_id] else []) ++ tail.2)

/-- Alert severity levels of the security monitor. -/
inductive AlertSeverity
  | low
  | medium
  | high
  | critical
deriving DecidableEq

/-- Security event types of the security monitor. -/
inductive EventType
  | login_attempt
  | login_success
  | login_failure
  | data_access
  | data_modification
  | privilege_escalation
  | system_access
  | configuration_change
  | security_violation
  | anomaly_detected
deriving DecidableEq

/-- Security event data structure. The timestamp is UTC epoch seconds. -/
structure SecurityEvent where
  event_id : String
  event_type : EventType
  timestamp : Nat
  user_id : Option String
  source_ip : String
  user_agent : Option String
  resource : String
  action : String
  result : String
  severity : AlertSeverity
  details : Evidence := []
  risk_score : ℚ := 0
deriving DecidableEq

/-- Hour of day of an epoch-seconds timestamp. -/
def hourOf (t : Nat) : Nat := t / 3600 % 24

/-- Event-type risk factor lookup table; event types missing from the dict
get the default of 0.1. -/
def eventRiskFactor : EventType → ℚ
  | EventType.login_failure => 3 / 10
  | EventType.login_success => 1 / 10
  | EventType.data_access => 2 / 10
  | EventType.data_modification => 4 / 10
  | EventType.privilege_escalation => 8 / 10
  | EventType.configuration_change => 6 / 10
  | EventType.security_violation => 9 / 10
  | EventType.anomaly_detected => 7 / 10
  | _ => 1 / 10

/-- Modelled from the spec: the suspicious-ip, per-user historical risk and
frequency-of-similar-events helpers are referenced by the risk calculator
but absent from the sources. Per the spec they contribute a source-ip
reputation flag, a per-user historical risk and a penalty by frequency of
similar events (similarity by type, source ip and user), modelled as
oracle functions of those inputs. -/
structure RiskEnv where
  suspicious_ip : String → Bool
  user_risk : String → ℚ
  frequency_risk : EventType → String → Option String → ℚ

/-- The unclamped additive risk sum of the risk calculator: base 0.1 plus
the event-type factor, plus 0.2 outside business hours (before 6 or after
22), plus 0.3 for a suspicious source ip, plus the per-user risk when a
user id is present (a falsy empty string adds nothing), plus the frequency
risk. -/
def rawRiskScore (env : RiskEnv) (e : SecurityEvent) : ℚ :=
  let b1 := 1 / 10 + eventRiskFactor e.event_type
  let b2 := if hourOf e.timestamp < 6 ∨ hourOf e.timestamp > 22 then b1 + 2 / 10 else b1
  let b3 := if env.suspicious_ip e.source_ip then b2 + 3 / 10 else b2
  let b4 :=
    match e.user_id with
    | some u => if u = "" then b3 else b3 + env.user_risk u
    | none => b3
  b4 + env.frequency_risk e.event_type e.source_ip e.user_id

/-- Risk score of a security event: the additive sum clamped above at 1. -/
def calculateRiskScore (env : RiskEnv) (e : SecurityEvent) : ℚ :=
  min (rawRiskScore env e) 1

/-- Security alert data structure. -/
structure SecurityAlert where
  alert_id : String
  title : String
  description : String
  severity : AlertSeverity
  event_ids : List String
  created_at : Nat
  acknowledged : Bool := false
  resolved : Bool := false
deriving DecidableEq

/-- Suppression window of the alert creator, 15 minutes in seconds. -/
def suppressionWindow : Nat := 900

/-- Mutable state of the alert creator: the suppression dict from alert key
to last alert time, the persisted alerts, the dispatched notifications and
the fresh-id counter standing in for the time-and-random id generator. -/
structure AlertState where
  alert_suppression : List (String × Nat)
  alerts : List SecurityAlert
  notified : List SecurityAlert
  next_id : Nat
deriving DecidableEq

/-- The empty initial alert state. -/
def alertState0 : AlertState := ⟨[], [], [], 0⟩

/-- Suppression key of an alert: the source hashes the
title-colon-description string with md5; the digest is modelled by the
string itself, md5 being treated as collision-free by design. -/
def suppressionKey (title description : String) : String :=
  title ++ ":" ++ description

/-- Alert id generated from the fresh-id counter. -/
def genAlertId (n : Nat) : String := "alt_" ++ toString n

/-- Create a security alert: when an alert with the same suppression key
was created less than the suppression window ago, return without creating
or notifying; otherwise persist the alert, send notifications, and record
the suppression time for the key. -/
def createAlert (s : AlertState) (title description : String)
    (severity : AlertSeverity) (event_ids : List String) (now : Nat) : AlertState :=
  let key := suppressionKey title description
  let suppressed :=
    match lcLookup s.alert_suppression key with
    | some t => decide (now - t < suppressionWindow)
    | none => false
  if suppressed then s
  else
    let alert : SecurityAlert :=
      ⟨genAlertId s.next_id, title, description, severity, event_ids, now, false, false⟩
    ⟨lcSet s.alert_suppression key now, s.alerts ++ [alert],
      s.notified ++ [alert], s.next_id + 1⟩

/-- Capacity of the bounded audit buffer, a deque with maxlen 1000. -/
def auditBufferCapacity : Nat := 1000

/-- Flush a batch of audit events to the database: on success the batch is
gone; on failure the batch is pushed back onto the front of the buffer in
its original order (the source extends the deque on the left with the
reversed batch), and the bounded deque drops entries beyond its capacity
from the right; the exception is logged and not re-raised. The database
outcome is supplied as an oracle. The function returns the new buffer,
the buffer being the deque minus the already-popped batch. -/
def flushAuditEvents (res : Except String Unit) (events buffer : List AuditEvent) :
    List AuditEvent :=
  match res with
  | Except.ok _ => buffer
  | Except.error _ => (events ++ buffer).take auditBufferCapacity

/-- One iteration of the audit-log flusher: when the buffer is nonempty,
pop up to 100 events from the front as the batch and flush them. Returns
the new buffer and the batch attempted on this iteration. -/
def flusherTick (res : Except String Unit) (buffer : List AuditEvent) :
    List AuditEvent × List AuditEvent :=
  if buffer.isEmpty then (buffer, [])
  else
    let events := buffer.take 100
    let rest := buffer.drop 100
    (flushAuditEvents res events rest, events)
/-! Integer mirrors of the percentage-based definitions. The source compares
the exact compliance ratio against 1 and 0.8; the N-suffixed forms below use
the equivalent integer comparisons and are proven equal, so that concrete
runs reduce inside the kernel. -/

/-- Integer form of the framework-status classification, proven equal to
statusOf for a nonzero total. -/
def statusOfN (compliant total : Nat) : ComplianceStatus :=
  if compliant = total then ComplianceStatus.compliant
  else if 8 * total ≤ 10 * compliant then ComplianceStatus.partlyCompliant
  else ComplianceStatus.nonCompliant

/-- Integer form of checkFrameworkCompliance, proven equal to it. -/
def checkFrameworkComplianceN (env : ChecksEnv) (rules : List ComplianceRule)
    (fw : ComplianceFramework) (now : Nat) (s : MonitorState) :
    Except String (FrameworkResults × MonitorState) :=
  let frameworkRules := enabledRulesFor rules fw
  let out := cfcLoop env fw now frameworkRules 0 [] s
  if frameworkRules.length = 0 then Except.error "division by zero"
  else
    Except.ok (⟨fw, frameworkRules.length, out.1, out.2.1,
      statusOfN out.1 frameworkRules.length⟩, out.2.2)

/-- Integer form of the framework loop of checkCompliance. -/
def ccLoopN (env : ChecksEnv) (rules : List ComplianceRule) (now : Nat) :
    List ComplianceFramework → ComplianceStatus →
    List (ComplianceFramework × FrameworkResults) → List ComplianceViolation →
    MonitorState →
    Except String (ComplianceStatus × List (ComplianceFramework × FrameworkResults) ×
      List ComplianceViolation × MonitorState)
  | [], overall, frs, vs, s => Except.ok (overall, frs, vs, s)
  | fw :: rest, overall, frs, vs, s =>
    match checkFrameworkComplianceN env rules fw now s with
    | Except.error e => Except.error e
    | Except.ok (fr, s1) =>
      ccLoopN env rules now rest (updateOverall overall fr.status)
        (frs ++ [(fw, fr)]) (vs ++ fr.violations) s1

/-- Integer form of checkCompliance, proven equal to it. -/
def checkComplianceN (env : ChecksEnv) (rules : List ComplianceRule)
    (recs : List ComplianceViolation → List String)
    (fwOpt : Option ComplianceFramework) (now : Nat) (s : MonitorState) :
    Except String (ComplianceResults × MonitorState) :=
  match ccLoopN env rules now (checkedFrameworks fwOpt)
      ComplianceStatus.compliant [] [] s with
  | Except.error e => Except.error e
  | Except.ok (overall, frs, vs, s1) => Except.ok (⟨frs, overall, vs, recs vs⟩, s1)

/-- Overall-status aggregation written after the words of the claim, for
comparison with the source computation: NON_COMPLIANT if any framework is
NON_COMPLIANT, else PARTIALLY_COMPLIANT if any is PARTIALLY_COMPLIANT,
else COMPLIANT. -/
def overallOfSpec (stats : List ComplianceStatus) : ComplianceStatus :=
  if stats.any (fun st => decide (st = ComplianceStatus.nonCompliant)) then
    ComplianceStatus.nonCompliant
  else if stats.any (fun st => decide (st = ComplianceStatus.partlyCompliant)) then
    ComplianceStatus.partlyCompliant
  else ComplianceStatus.compliant

/-- Result component of a successful compliance check, with a dummy value on
error; used to name the concrete result of a run. -/
def crPart (x : Except String (ComplianceResults × MonitorState)) : ComplianceResults :=
  match x with
  | Except.ok p => p.1
  | Except.error _ => ⟨[], ComplianceStatus.unknown, [], []⟩

/-- State component of a successful compliance check, with a dummy value on
error; used to name the concrete state of a run. -/
def crState (x : Except String (ComplianceResults × MonitorState)) : MonitorState :=
  match x with
  | Except.ok p => p.2
  | Except.error _ => monState0

/-! Concrete fixtures used by the counterexamples and witnesses below. -/

/-- Environment with no registered check functions. -/
def envNone : ChecksEnv := fun _ => none

/-- Environment with a raising check, a non-compliant check returning error
evidence (the shape every built-in check returns when it catches an
internal exception), and a compliant check. -/
def envBoth : ChecksEnv := fun name =>
  if name = "boom_check" then some (fun _ => Except.error "boom")
  else if name = "fail_check" then some (fun _ => Except.ok (false, [("error", "db down")]))
  else if name = "ok_check" then some (fun _ => Except.ok (true, []))
  else none

/-- Risk oracle with no flagged ips and zero user and frequency risk. -/
def envZero : RiskEnv := ⟨fun _ => false, fun _ => 0, fun _ _ _ => 0⟩

/-- Enabled HIPAA rule whose check function raises. -/
def ruleBoom : ComplianceRule :=
  ⟨"r_boom", ComplianceFramework.hipaa, "cat", "Boom Rule", "raises",
    ViolationSeverity.high, "boom_check", [], true, "daily"⟩

/-- Enabled HIPAA rule whose check function returns non-compliant. -/
def ruleFail : ComplianceRule :=
  ⟨"r_fail", ComplianceFramework.hipaa, "cat", "Fail Rule", "returns non-compliant",
    ViolationSeverity.high, "fail_check", [], true, "daily"⟩

/-- Enabled HIPAA rule whose check function returns compliant. -/
def ruleOk : ComplianceRule :=
  ⟨"r_ok", ComplianceFramework.hipaa, "cat", "Ok Rule", "returns compliant",
    ViolationSeverity.low, "ok_check", [], true, "daily"⟩

/-- Enabled rule with continuous frequency. -/
def contRule : ComplianceRule :=
  ⟨"cont_001", ComplianceFramework.hipaa, "cat", "Continuous Rule", "continuous frequency",
    ViolationSeverity.high, "ok_check", [], true, "continuous"⟩

/-- Scheduler state in which the continuous rule was last checked at time 0. -/
def sCont : SchedState := ⟨[("cont_001", 0)], monState0⟩

/-- A concrete HIGH-severity violation record. -/
def violX : ComplianceViolation :=
  ⟨"viol_X", "rule_1", ComplianceFramework.hipaa, ViolationSeverity.high,
    "T", "D", [], 0, none, none, "open"⟩

/-- A concrete audit event. -/
def evA : AuditEvent :=
  ⟨"a1", "login_attempt", none, "/api", "read", 0, "10.0.0.1", none, "success", []⟩

/-- A second concrete audit event. -/
def evB : AuditEvent :=
  ⟨"a2", "data_access", some "u1", "/api/patient", "read", 5, "10.0.0.2", none, "success", []⟩

/-- A security-violation event at a given epoch-seconds timestamp. -/
def evAt (t : Nat) : SecurityEvent :=
  ⟨"e1", EventType.security_violation, t, none, "1.2.3.4", none, "/r", "a", "success",
    AlertSeverity.high, [], 0⟩

/-- A low-weight login-success event. -/
def evW : SecurityEvent :=
  ⟨"w1", EventType.login_success, 0, none, "9.9.9.9", none, "/r", "a", "success",
    AlertSeverity.low, [], 0⟩
/-! Helper lemmas. -/

theorem statusOf_eq_statusOfN (c n : Nat) (hn : n ≠ 0) :
    statusOf c n = statusOfN c n := by
  have hn0 : (0:ℚ) < (n:ℚ) := by exact_mod_cast Nat.pos_of_ne_zero hn
  have h1 : ((c:ℚ) / (n:ℚ) = 1) ↔ c = n := by
    rw [div_eq_one_iff_eq (ne_of_gt hn0)]
    exact_mod_cast Iff.rfl
  have h2 : (8 / 10 ≤ (c:ℚ) / (n:ℚ)) ↔ 8 * n ≤ 10 * c := by
    rw [div_le_div_iff₀ (by norm_num) hn0, mul_comm (c:ℚ) 10]
    exact_mod_cast Iff.rfl
  by_cases e1 : c = n
  · simp [statusOf, statusOfN, e1, div_self (ne_of_gt hn0)]
  · have ne1 : ¬((c:ℚ)/(n:ℚ) = 1) := fun hh => e1 (h1.mp hh)
    by_cases e2 : 8 * n ≤ 10 * c
    · simp [statusOf, statusOfN, ne1, e1, e2, ge_iff_le, h2.mpr e2]
    · have ne2 : ¬ (8/10 ≤ (c:ℚ)/(n:ℚ)) := fun hh => e2 (h2.mp hh)
      simp [statusOf, statusOfN, ne1, e1, e2, ge_iff_le, ne2]

theorem cfc_eq_cfcN (env : ChecksEnv) (rules : List ComplianceRule)
    (fw : ComplianceFramework) (now : Nat) (s : MonitorState) :
    checkFrameworkCompliance env rules fw now s =
      checkFrameworkComplianceN env rules fw now s := by
  by_cases h : (enabledRulesFor rules fw).length = 0
  · simp [checkFrameworkCompliance, checkFrameworkComplianceN, h]
  · simp [checkFrameworkCompliance, checkFrameworkComplianceN, h,
      statusOf_eq_statusOfN _ _ h]

theorem ccLoop_eq_ccLoopN (env : ChecksEnv) (rules : List ComplianceRule) (now : Nat)
    (fws : List ComplianceFramework) :
    ∀ overall frs vs s, ccLoop env rules now fws overall frs vs s =
      ccLoopN env rules now fws overall frs vs s := by
  induction fws with
  | nil => intro overall frs vs s; rfl
  | cons fw rest ih =>
    intro overall frs vs s
    show ccLoop env rules now (fw :: rest) overall frs vs s =
      ccLoopN env rules now (fw :: rest) overall frs vs s
    rw [ccLoop, ccLoopN, cfc_eq_cfcN]
    cases checkFrameworkComplianceN env rules fw now s with
    | error e => rfl
    | ok p => exact ih _ _ _ _

theorem checkCompliance_eq_checkComplianceN (env : ChecksEnv)
    (rules : List ComplianceRule) (recs : List ComplianceViolation → List String)
    (fwOpt : Option ComplianceFramework) (now : Nat) (s : MonitorState) :
    checkCompliance env rules recs fwOpt now s =
      checkComplianceN env rules recs fwOpt now s := by
  unfold checkCompliance checkComplianceN
  rw [ccLoop_eq_ccLoopN]

theorem lcLookup_lcSet_self (l : List (String × Nat)) (k : String) (v : Nat) :
    lcLookup (lcSet l k v) k = some v := by
  induction l with
  | nil => simp [lcSet, lcLookup]
  | cons kv rest ih =>
    by_cases h : kv.1 = k
    · simp [lcSet, lcLookup, h]
    · simp [lcSet, lcLookup, h, ih]

theorem lcLookup_lcSet_ne (l : List (String × Nat)) (k k2 : String) (v : Nat)
    (h : k2 ≠ k) : lcLookup (lcSet l k v) k2 = lcLookup l k2 := by
  have hne : ¬ (k = k2) := fun hh => h hh.symm
  induction l with
  | nil => simp [lcSet, lcLookup, hne]
  | cons kv rest ih =>
    cases kv with
    | mk k1 u =>
      by_cases hk : k1 = k
      · subst hk
        simp [lcSet, lcLookup, hne]
      · simp [lcSet, lcLookup, hk, ih]

theorem statusOf_char (c n : Nat) (hn : n ≠ 0) (hc : c ≤ n) :
    (statusOf c n = ComplianceStatus.compliant ↔ (c:ℚ)/(n:ℚ) = 1) ∧
    (statusOf c n = ComplianceStatus.partlyCompliant ↔
      (8/10 ≤ (c:ℚ)/(n:ℚ) ∧ (c:ℚ)/(n:ℚ) < 1)) ∧
    (statusOf c n = ComplianceStatus.nonCompliant ↔ (c:ℚ)/(n:ℚ) < 8/10) := by
  have hn0 : (0:ℚ) < (n:ℚ) := by exact_mod_cast Nat.pos_of_ne_zero hn
  have hle1 : (c:ℚ)/(n:ℚ) ≤ 1 := by
    rw [div_le_one hn0]
    exact_mod_cast hc
  simp only [statusOf]
  by_cases h1 : (c:ℚ)/(n:ℚ) = 1
  · rw [if_pos h1]
    refine ⟨?_, ?_, ?_⟩ <;> constructor <;> intro h <;>
      first
        | rfl
        | exact h1
        | exact ComplianceStatus.noConfusion h
        | (exfalso; rcases h with ⟨ha, hb⟩; linarith)
        | (exfalso; linarith)
  · by_cases h2 : (c:ℚ)/(n:ℚ) ≥ 8/10
    · have hlt : (c:ℚ)/(n:ℚ) < 1 := lt_of_le_of_ne hle1 h1
      rw [if_neg h1, if_pos h2]
      refine ⟨?_, ?_, ?_⟩ <;> constructor <;> intro h <;>
        first
          | rfl
          | exact ⟨h2, hlt⟩
          | exact ComplianceStatus.noConfusion h
          | (exfalso; rcases h with ⟨ha, hb⟩; linarith)
          | (exfalso; linarith)
    · have hlt8 : (c:ℚ)/(n:ℚ) < 8/10 := lt_of_not_le h2
      rw [if_neg h1, if_neg h2]
      refine ⟨?_, ?_, ?_⟩ <;> constructor <;> intro h <;>
        first
          | rfl
          | exact hlt8
          | exact ComplianceStatus.noConfusion h
          | (exfalso; rcases h with ⟨ha, hb⟩; linarith)
          | (exfalso; linarith)

theorem cfcLoop_count_le (env : ChecksEnv) (fw : ComplianceFramework) (now : Nat) :
    ∀ (L : List ComplianceRule) (c : Nat) (vs : List ComplianceViolation) (s : MonitorState),
      (cfcLoop env fw now L c vs s).1 ≤ c + L.length := by
  intro L
  induction L with
  | nil => intro c vs s; simp [cfcLoop]
  | cons r rest ih =>
    intro c vs s
    cases hr : executeRuleCheck env r with
    | error e =>
      simp only [cfcLoop, hr]
      exact le_trans (ih c vs s) (by simp only [List.length_cons]; omega)
    | ok p =>
      obtain ⟨b, d⟩ := p
      cases b
      · simp only [cfcLoop, hr]
        exact le_trans (ih c _ _) (by simp only [List.length_cons]; omega)
      · simp only [cfcLoop, hr]
        exact le_trans (ih (c+1) _ _) (by simp only [List.length_cons]; omega)

theorem ccLoop_isOk (env : ChecksEnv) (rules : List ComplianceRule) (now : Nat)
    (fws : List ComplianceFramework)
    (h : ∀ fw ∈ fws, enabledRulesFor rules fw ≠ []) :
    ∀ overall frs vs s, ∃ out, ccLoop env rules now fws overall frs vs s = Except.ok out := by
  induction fws with
  | nil => intro overall frs vs s; exact ⟨_, rfl⟩
  | cons fw rest ih =>
    intro overall frs vs s
    have hfw : enabledRulesFor rules fw ≠ [] := h fw (List.mem_cons_self fw rest)
    have hlen : (enabledRulesFor rules fw).length ≠ 0 :=
      fun hh => hfw (List.length_eq_zero.mp hh)
    have hcf : checkFrameworkCompliance env rules fw now s =
        Except.ok (⟨fw, (enabledRulesFor rules fw).length,
          (cfcLoop env fw now (enabledRulesFor rules fw) 0 [] s).1,
          (cfcLoop env fw now (enabledRulesFor rules fw) 0 [] s).2.1,
          statusOf (cfcLoop env fw now (enabledRulesFor rules fw) 0 [] s).1
            (enabledRulesFor rules fw).length⟩,
          (cfcLoop env fw now (enabledRulesFor rules fw) 0 [] s).2.2) := by
      simp only [checkFrameworkCompliance, if_neg hlen]
    rw [ccLoop, hcf]
    exact ih (fun g hg => h g (List.mem_cons_of_mem fw hg)) _ _ _ _

theorem updateOverall_non (st : ComplianceStatus) :
    updateOverall ComplianceStatus.nonCompliant st = ComplianceStatus.nonCompliant := by
  cases st <;> simp [updateOverall]

theorem foldl_updateOverall_non (l : List ComplianceStatus) :
    l.foldl updateOverall ComplianceStatus.nonCompliant = ComplianceStatus.nonCompliant := by
  induction l with
  | nil => rfl
  | cons st rest ih => rw [List.foldl_cons, updateOverall_non, ih]

theorem foldl_updateOverall_partly (l : List ComplianceStatus) :
    l.foldl updateOverall ComplianceStatus.partlyCompliant =
      (if l.any (fun st => decide (st = ComplianceStatus.nonCompliant)) then
        ComplianceStatus.nonCompliant
      else ComplianceStatus.partlyCompliant) := by
  induction l with
  | nil => rfl
  | cons st rest ih =>
    cases st <;> simp [updateOverall, ih, foldl_updateOverall_non]

theorem foldl_updateOverall_compliant (l : List ComplianceStatus) :
    l.foldl updateOverall ComplianceStatus.compliant = overallOfSpec l := by
  induction l with
  | nil => rfl
  | cons st rest ih =>
    cases st <;>
      simp [updateOverall, overallOfSpec, ih, foldl_updateOverall_non,
        foldl_updateOverall_partly]

theorem ccLoop_char (env : ChecksEnv) (rules : List ComplianceRule) (now : Nat) :
    ∀ (fws : List ComplianceFramework) (overall : ComplianceStatus)
      (frs : List (ComplianceFramework × FrameworkResults)) (vs : List ComplianceViolation)
      (s : MonitorState) (o : ComplianceStatus)
      (frs2 : List (ComplianceFramework × FrameworkResults)) (vs2 : List ComplianceViolation)
      (s2 : MonitorState),
      ccLoop env rules now fws overall frs vs s = Except.ok (o, frs2, vs2, s2) →
      ∃ nf, frs2 = frs ++ nf ∧
        o = (nf.map (fun p => p.2.status)).foldl updateOverall overall ∧
        vs2 = vs ++ (nf.map (fun p => p.2.violations)).flatten := by
  intro fws
  induction fws with
  | nil =>
    intro overall frs vs s o frs2 vs2 s2 h
    rw [ccLoop, Except.ok.injEq, Prod.mk.injEq, Prod.mk.injEq, Prod.mk.injEq] at h
    obtain ⟨h1, h2, h3, h4⟩ := h
    exact ⟨[], by simp [h2], by simp [h1], by simp [h3]⟩
  | cons fw rest ih =>
    intro overall frs vs s o frs2 vs2 s2 h
    rw [ccLoop] at h
    cases hcf : checkFrameworkCompliance env rules fw now s with
    | error e => rw [hcf] at h; cases h
    | ok p =>
      obtain ⟨fr, s1⟩ := p
      rw [hcf] at h
      obtain ⟨nf, hfrs, ho, hvs⟩ := ih _ _ _ _ _ _ _ _ h
      refine ⟨(fw, fr) :: nf, ?_, ?_, ?_⟩
      · rw [hfrs]; simp
      · rw [ho]; simp
      · rw [hvs]; simp

theorem processRule_snd (env : ChecksEnv) (now : Nat) (s : SchedState) (r : ComplianceRule) :
    (processRule env now s r).2 =
      (r.enabled && checkDue r.frequency (lcLookup s.last_check_times r.rule_id) now) := by
  cases he : r.enabled
  · simp [processRule, he]
  · by_cases hd : checkDue r.frequency (lcLookup s.last_check_times r.rule_id) now
    · cases hr : executeRuleCheck env r with
      | error e => simp [processRule, he, hd, hr]
      | ok p =>
        obtain ⟨b, d⟩ := p
        cases b <;> simp [processRule, he, hd, hr]
    · simp [processRule, he, hd]

theorem processRule_lct_ne (env : ChecksEnv) (now : Nat) (s : SchedState)
    (r : ComplianceRule) (k : String) (hk : k ≠ r.rule_id) :
    lcLookup (processRule env now s r).1.last_check_times k =
      lcLookup s.last_check_times k := by
  cases he : r.enabled
  · simp [processRule, he]
  · by_cases hd : checkDue r.frequency (lcLookup s.last_check_times r.rule_id) now
    · cases hr : executeRuleCheck env r with
      | error e => simp [processRule, he, hd, hr]
      | ok p =>
        obtain ⟨b, d⟩ := p
        cases b <;> simp [processRule, he, hd, hr, lcLookup_lcSet_ne _ _ _ _ hk]
    · simp [processRule, he, hd]

theorem scheduledTick_ids (env : ChecksEnv) (now : Nat) :
    ∀ (rules : List ComplianceRule) (s : SchedState),
      (rules.map (fun r => r.rule_id)).Nodup →
      (scheduledTick env now rules s).2 =
        (rules.filter (fun r =>
          r.enabled && checkDue r.frequency (lcLookup s.last_check_times r.rule_id) now)).map
          (fun r => r.rule_id) := by
  intro rules
  induction rules with
  | nil => intro s _; rfl
  | cons r rest ih =>
    intro s hnd
    rw [List.map_cons, List.nodup_cons] at hnd
    obtain ⟨hnotin, hndrest⟩ := hnd
    have hfilter : rest.filter (fun r2 =>
        r2.enabled && checkDue r2.frequency
          (lcLookup (processRule env now s r).1.last_check_times r2.rule_id) now) =
      rest.filter (fun r2 =>
        r2.enabled && checkDue r2.frequency (lcLookup s.last_check_times r2.rule_id) now) := by
      apply List.filter_congr
      intro r2 hr2
      have hne : r2.rule_id ≠ r.rule_id := by
        intro hh
        exact hnotin (hh ▸ List.mem_map_of_mem (fun rr => rr.rule_id) hr2)
      rw [processRule_lct_ne env now s r r2.rule_id hne]
    show ((if (processRule env now s r).2 then [r.rule_id] else []) ++
        (scheduledTick env now rest (processRule env now s r).1).2) = _
    rw [ih (processRule env now s r).1 hndrest, hfilter, processRule_snd]
    cases hcond : (r.enabled && checkDue r.frequency (lcLookup s.last_check_times r.rule_id) now)
    · simp [List.filter_cons, hcond]
    · simp [List.filter_cons, hcond]

theorem checkDue_char (freq : String) (last : Option Nat) (t : Nat) :
    (checkDue freq last t = true ↔
      (last = none ∨
        (freq = "daily" ∧ 1 ≤ (t - last.getD 0) / 86400) ∨
        (freq = "weekly" ∧ 7 ≤ (t - last.getD 0) / 86400) ∨
        (freq = "monthly" ∧ 30 ≤ (t - last.getD 0) / 86400))) := by
  cases last with
  | none => simp [checkDue]
  | some u =>
    by_cases hd : freq = "daily"
    · simp [checkDue, hd]
    · by_cases hw : freq = "weekly"
      · simp [checkDue, hd, hw]
      · by_cases hm : freq = "monthly"
        · simp [checkDue, hd, hw, hm]
        · simp [checkDue, hd, hw, hm]

theorem createAlert_suppressed (s : AlertState) (title description : String)
    (sev : AlertSeverity) (ids : List String) (now t : Nat)
    (hk : lcLookup s.alert_suppression (suppressionKey title description) = some t)
    (hw : now - t < suppressionWindow) :
    createAlert s title description sev ids now = s := by
  simp [createAlert, hk, hw]

theorem createAlert_fresh (s : AlertState) (title description : String)
    (sev : AlertSeverity) (ids : List String) (now : Nat)
    (hk : lcLookup s.alert_suppression (suppressionKey title description) = none) :
    createAlert s title description sev ids now =
      ⟨lcSet s.alert_suppression (suppressionKey title description) now,
        s.alerts ++ [⟨genAlertId s.next_id, title, description, sev, ids, now, false, false⟩],
        s.notified ++ [⟨genAlertId s.next_id, title, description, sev, ids, now, false, false⟩],
        s.next_id + 1⟩ := by
  simp [createAlert, hk]

theorem createAlert_expired (s : AlertState) (title description : String)
    (sev : AlertSeverity) (ids : List String) (now t : Nat)
    (hk : lcLookup s.alert_suppression (suppressionKey title description) = some t)
    (hw : ¬ (now - t < suppressionWindow)) :
    createAlert s title description sev ids now =
      ⟨lcSet s.alert_suppression (suppressionKey title description) now,
        s.alerts ++ [⟨genAlertId s.next_id, title, description, sev, ids, now, false, false⟩],
        s.notified ++ [⟨genAlertId s.next_id, title, description, sev, ids, now, false, false⟩],
        s.next_id + 1⟩ := by
  simp [createAlert, hk, hw]

theorem raw_offhours_delta (env : RiskEnv) (e : SecurityEvent) (t3 t14 : Nat)
    (h3 : hourOf t3 = 3) (h14 : hourOf t14 = 14) :
    rawRiskScore env { e with timestamp := t3 } =
      rawRiskScore env { e with timestamp := t14 } + 2 / 10 := by
  simp only [rawRiskScore, h3, h14]
  norm_num
  cases hip : env.suspicious_ip e.source_ip <;>
    cases hid : e.user_id <;>
      simp [hip, hid] <;> (try split_ifs) <;> ring

theorem raw_nonneg (env : RiskEnv) (e : SecurityEvent)
    (hu : ∀ u, 0 ≤ env.user_risk u)
    (hf : ∀ ty ip uid, 0 ≤ env.frequency_risk ty ip uid) :
    0 ≤ rawRiskScore env e := by
  have hef : (0:ℚ) ≤ eventRiskFactor e.event_type := by
    cases e.event_type <;> norm_num [eventRiskFactor]
  cases hid : e.user_id with
  | none =>
    have hfr := hf e.event_type e.source_ip none
    simp only [rawRiskScore, hid]
    split_ifs <;> linarith
  | some u =>
    have hfr := hf e.event_type e.source_ip (some u)
    have huu := hu u
    simp only [rawRiskScore, hid]
    split_ifs <;> linarith
/-! Claim theorems. -/

/-- C1, counterexample: a single enabled HIPAA rule whose check function
raises is silently skipped by the framework compliance check: the run
succeeds with an empty violations list and an untouched monitor state (no
stored violation, no notification, no error evidence), while the claim
requires the rule to be reported as a violation with the error evidence. -/
theorem C1_counterexample :
    checkFrameworkCompliance envBoth [ruleBoom] ComplianceFramework.hipaa 0 monState0 =
      Except.ok (⟨ComplianceFramework.hipaa, 1, 0, [], ComplianceStatus.nonCompliant⟩,
        monState0) := by
  rw [cfc_eq_cfcN]
  rfl

/-- C1, amended: inside the per-rule loop of the framework compliance check,
a rule whose check function raises is skipped entirely, neither counted as
compliant nor reported as a violation, while a rule whose check function
returns non-compliant evidence (the shape every built-in check produces
when it catches an internal exception, returning the error evidence) is
reported as a violation carrying the configured rule severity and exactly
that evidence. -/
theorem C1_fail_closed (env : ChecksEnv) (fw : ComplianceFramework) (now : Nat)
    (r1 r2 : ComplianceRule) (rest : List ComplianceRule) (c : Nat)
    (vs : List ComplianceViolation) (s : MonitorState) (msg : String) (d : Evidence)
    (h1 : executeRuleCheck env r1 = Except.error msg)
    (h2 : executeRuleCheck env r2 = Except.ok (false, d)) :
    cfcLoop env fw now (r1 :: rest) c vs s = cfcLoop env fw now rest c vs s ∧
    cfcLoop env fw now (r2 :: rest) c vs s =
      cfcLoop env fw now rest c
        (vs ++ [mkViolation (genViolationId s.next_id) r2 fw d now])
        (handleViolation { s with next_id := s.next_id + 1 }
          (mkViolation (genViolationId s.next_id) r2 fw d now)) ∧
    (mkViolation (genViolationId s.next_id) r2 fw d now).severity = r2.severity ∧
    (mkViolation (genViolationId s.next_id) r2 fw d now).details = d := by
  refine ⟨?_, ?_, rfl, rfl⟩
  · simp only [cfcLoop, h1]
  · simp only [cfcLoop, h2]

/-- C1, witness: the amended statement applied to the raising rule and the
non-compliant rule at concrete inputs. -/
theorem C1_witness :
    cfcLoop envBoth ComplianceFramework.hipaa 7 [ruleBoom] 0 [] monState0 =
      cfcLoop envBoth ComplianceFramework.hipaa 7 [] 0 [] monState0 ∧
    cfcLoop envBoth ComplianceFramework.hipaa 7 [ruleFail] 0 [] monState0 =
      cfcLoop envBoth ComplianceFramework.hipaa 7 []
        0 ([] ++ [mkViolation (genViolationId monState0.next_id) ruleFail
            ComplianceFramework.hipaa [("error", "db down")] 7])
        (handleViolation { monState0 with next_id := monState0.next_id + 1 }
          (mkViolation (genViolationId monState0.next_id) ruleFail
            ComplianceFramework.hipaa [("error", "db down")] 7)) ∧
    (mkViolation (genViolationId monState0.next_id) ruleFail
      ComplianceFramework.hipaa [("error", "db down")] 7).severity = ruleFail.severity ∧
    (mkViolation (genViolationId monState0.next_id) ruleFail
      ComplianceFramework.hipaa [("error", "db down")] 7).details = [("error", "db down")] :=
  C1_fail_closed envBoth ComplianceFramework.hipaa 7 ruleBoom ruleFail [] 0 [] monState0
    "boom" [("error", "db down")] rfl rfl

/-- C2: for every framework with at least one enabled rule, the framework
compliance check classifies from the exact ratio of compliant to total
enabled rules: the status is COMPLIANT exactly when the ratio is 1,
PARTIALLY_COMPLIANT exactly when the ratio is at least 8 over 10 and below
1, and NON_COMPLIANT exactly when the ratio is below 8 over 10 (so 10 of
10 compliant is COMPLIANT, 8 of 10 is PARTIALLY_COMPLIANT, 7 of 10 is
NON_COMPLIANT). -/
theorem C2_framework_status_thresholds (env : ChecksEnv) (rules : List ComplianceRule)
    (fw : ComplianceFramework) (now : Nat) (s : MonitorState)
    (fr : FrameworkResults) (s1 : MonitorState)
    (h : checkFrameworkCompliance env rules fw now s = Except.ok (fr, s1)) :
    0 < fr.total_rules ∧
    (fr.status = ComplianceStatus.compliant ↔
      (fr.compliant_rules : ℚ) / (fr.total_rules : ℚ) = 1) ∧
    (fr.status = ComplianceStatus.partlyCompliant ↔
      (8 / 10 ≤ (fr.compliant_rules : ℚ) / (fr.total_rules : ℚ) ∧
        (fr.compliant_rules : ℚ) / (fr.total_rules : ℚ) < 1)) ∧
    (fr.status = ComplianceStatus.nonCompliant ↔
      (fr.compliant_rules : ℚ) / (fr.total_rules : ℚ) < 8 / 10) := by
  by_cases hz : (enabledRulesFor rules fw).length = 0
  · exfalso
    simp [checkFrameworkCompliance, hz] at h
  · simp only [checkFrameworkCompliance, if_neg hz] at h
    rw [Except.ok.injEq, Prod.mk.injEq] at h
    obtain ⟨hfr, hs⟩ := h
    subst hfr
    have hchar := statusOf_char (cfcLoop env fw now (enabledRulesFor rules fw) 0 [] s).1
      (enabledRulesFor rules fw).length hz
      (by simpa using cfcLoop_count_le env fw now (enabledRulesFor rules fw) 0 [] s)
    exact ⟨Nat.pos_of_ne_zero hz, hchar.1, hchar.2.1, hchar.2.2⟩

/-- C2, witness: the threshold characterization applied to a concrete run
over one compliant rule. -/
theorem C2_witness :
    0 < (FrameworkResults.mk ComplianceFramework.hipaa 1 1 []
      ComplianceStatus.compliant).total_rules ∧
    ((FrameworkResults.mk ComplianceFramework.hipaa 1 1 []
        ComplianceStatus.compliant).status = ComplianceStatus.compliant ↔
      ((FrameworkResults.mk ComplianceFramework.hipaa 1 1 []
          ComplianceStatus.compliant).compliant_rules : ℚ) /
        ((FrameworkResults.mk ComplianceFramework.hipaa 1 1 []
          ComplianceStatus.compliant).total_rules : ℚ) = 1) ∧
    ((FrameworkResults.mk ComplianceFramework.hipaa 1 1 []
        ComplianceStatus.compliant).status = ComplianceStatus.partlyCompliant ↔
      (8 / 10 ≤ ((FrameworkResults.mk ComplianceFramework.hipaa 1 1 []
          ComplianceStatus.compliant).compliant_rules : ℚ) /
          ((FrameworkResults.mk ComplianceFramework.hipaa 1 1 []
            ComplianceStatus.compliant).total_rules : ℚ) ∧
        ((FrameworkResults.mk ComplianceFramework.hipaa 1 1 []
          ComplianceStatus.compliant).compliant_rules : ℚ) /
          ((FrameworkResults.mk ComplianceFramework.hipaa 1 1 []
            ComplianceStatus.compliant).total_rules : ℚ) < 1)) ∧
    ((FrameworkResults.mk ComplianceFramework.hipaa 1 1 []
        ComplianceStatus.compliant).status = ComplianceStatus.nonCompliant ↔
      ((FrameworkResults.mk ComplianceFramework.hipaa 1 1 []
          ComplianceStatus.compliant).compliant_rules : ℚ) /
        ((FrameworkResults.mk ComplianceFramework.hipaa 1 1 []
          ComplianceStatus.compliant).total_rules : ℚ) < 8 / 10) :=
  C2_framework_status_thresholds envBoth [ruleOk] ComplianceFramework.hipaa 0 monState0
    (FrameworkResults.mk ComplianceFramework.hipaa 1 1 [] ComplianceStatus.compliant)
    monState0 (by rw [cfc_eq_cfcN]; rfl)

/-- C3, counterexample: under the default rule load, checking the SOX
framework, which has zero enabled rules, makes check_compliance propagate
a division-by-zero error to the caller instead of returning a best-effort
result, refuting the claim that no exception ever propagates. -/
theorem C3_counterexample :
    checkCompliance envNone defaultRules (fun _ => []) (some ComplianceFramework.sox) 0
      monState0 = Except.error "division by zero" := by
  rfl

/-- C3, amended: check_compliance returns a result dictionary whenever every
checked framework has at least one enabled rule; a framework with zero
enabled rules instead raises a division-by-zero error that the caller
re-raises. -/
theorem C3_no_raise (env : ChecksEnv) (rules : List ComplianceRule)
    (recs : List ComplianceViolation → List String) (fwOpt : Option ComplianceFramework)
    (now : Nat) (s : MonitorState)
    (h : ∀ fw ∈ checkedFrameworks fwOpt, enabledRulesFor rules fw ≠ []) :
    (checkCompliance env rules recs fwOpt now s).isOk = true := by
  obtain ⟨out, hout⟩ := ccLoop_isOk env rules now (checkedFrameworks fwOpt) h
    ComplianceStatus.compliant [] [] s
  obtain ⟨overall, frs, vs, s1⟩ := out
  simp [checkCompliance, hout, Except.isOk, Except.toBool]

/-- C3, witness: the amended statement for the HIPAA framework, which has
enabled rules under the default rule load. -/
theorem C3_witness :
    (checkCompliance envNone defaultRules (fun _ => [])
      (some ComplianceFramework.hipaa) 0 monState0).isOk = true :=
  C3_no_raise envNone defaultRules (fun _ => []) (some ComplianceFramework.hipaa) 0
    monState0 (by decide)

/-- C4: two create_alert calls with identical title and description, the
second within the suppression window of the first creation, produce
exactly one persisted alert and one notification (the second call is a
no-op on the whole alert state), and a third identical call once the
window has elapsed since the first creation produces a second alert and a
second notification. -/
theorem C4_alert_suppression (s : AlertState) (title description : String)
    (sev : AlertSeverity) (ids : List String) (t1 t2 t3 : Nat)
    (hfresh : lcLookup s.alert_suppression (suppressionKey title description) = none)
    (h2 : t2 - t1 < suppressionWindow) (h3 : suppressionWindow ≤ t3 - t1) :
    (createAlert s title description sev ids t1).alerts.length = s.alerts.length + 1 ∧
    createAlert (createAlert s title description sev ids t1) title description sev ids t2 =
      createAlert s title description sev ids t1 ∧
    (createAlert (createAlert (createAlert s title description sev ids t1)
        title description sev ids t2) title description sev ids t3).alerts.length =
      s.alerts.length + 2 ∧
    (createAlert (createAlert (createAlert s title description sev ids t1)
        title description sev ids t2) title description sev ids t3).notified.length =
      s.notified.length + 2 := by
  have hk1 : lcLookup (createAlert s title description sev ids t1).alert_suppression
      (suppressionKey title description) = some t1 := by
    rw [createAlert_fresh s title description sev ids t1 hfresh]
    exact lcLookup_lcSet_self _ _ _
  have hstep2 : createAlert (createAlert s title description sev ids t1)
      title description sev ids t2 = createAlert s title description sev ids t1 :=
    createAlert_suppressed _ title description sev ids t2 t1 hk1 h2
  have hstep3 := createAlert_expired (createAlert s title description sev ids t1)
    title description sev ids t3 t1 hk1 (not_lt.mpr h3)
  refine ⟨?_, hstep2, ?_, ?_⟩
  · rw [createAlert_fresh s title description sev ids t1 hfresh]
    simp
  · rw [hstep2, hstep3, createAlert_fresh s title description sev ids t1 hfresh]
    simp
  · rw [hstep2, hstep3, createAlert_fresh s title description sev ids t1 hfresh]
    simp

/-- C4, witness: the suppression behavior at concrete times 0, 100 and 900
seconds with a 900-second window. -/
theorem C4_witness :
    (createAlert alertState0 "T" "D" AlertSeverity.high ["e1"] 0).alerts.length =
      alertState0.alerts.length + 1 ∧
    createAlert (createAlert alertState0 "T" "D" AlertSeverity.high ["e1"] 0)
      "T" "D" AlertSeverity.high ["e1"] 100 =
      createAlert alertState0 "T" "D" AlertSeverity.high ["e1"] 0 ∧
    (createAlert (createAlert (createAlert alertState0 "T" "D" AlertSeverity.high ["e1"] 0)
        "T" "D" AlertSeverity.high ["e1"] 100)
        "T" "D" AlertSeverity.high ["e1"] 900).alerts.length =
      alertState0.alerts.length + 2 ∧
    (createAlert (createAlert (createAlert alertState0 "T" "D" AlertSeverity.high ["e1"] 0)
        "T" "D" AlertSeverity.high ["e1"] 100)
        "T" "D" AlertSeverity.high ["e1"] 900).notified.length =
      alertState0.notified.length + 2 :=
  C4_alert_suppression alertState0 "T" "D" AlertSeverity.high ["e1"] 0 100 900
    rfl (by decide) (by decide)

/-- C5: when a flush fails, the attempted batch is the first up-to-100
buffered events, the batch is re-enqueued at the front of the buffer in
its original order so the buffer is restored exactly (no event lost within
the bounded capacity, and the tick is a total function so no exception
escapes), and the next flush attempt retries the same batch. -/
theorem C5_buffer_retry (buffer : List AuditEvent) (msg : String)
    (res2 : Except String Unit) (hlen : buffer.length ≤ auditBufferCapacity) :
    (flusherTick (Except.error msg) buffer).2 = buffer.take 100 ∧
    (flusherTick (Except.error msg) buffer).1 = buffer.take 100 ++ buffer.drop 100 ∧
    (flusherTick (Except.error msg) buffer).1 = buffer ∧
    (flusherTick res2 (flusherTick (Except.error msg) buffer).1).2 =
      (flusherTick (Except.error msg) buffer).2 := by
  have hres : (flusherTick (Except.error msg) buffer).1 = buffer := by
    by_cases hb : buffer.isEmpty
    · simp [flusherTick, hb]
    · simp only [flusherTick, if_neg hb, flushAuditEvents]
      rw [List.take_append_drop]
      exact List.take_of_length_le hlen
  have hsnd : (flusherTick (Except.error msg) buffer).2 = buffer.take 100 := by
    by_cases hb : buffer.isEmpty
    · have hnil : buffer = [] := by simpa [List.isEmpty_iff] using hb
      simp [flusherTick, hb, hnil]
    · simp [flusherTick, hb]
  refine ⟨hsnd, ?_, hres, ?_⟩
  · rw [hres, List.take_append_drop]
  · rw [hres, hsnd]
    by_cases hb : buffer.isEmpty
    · have hnil : buffer = [] := by simpa [List.isEmpty_iff] using hb
      simp [flusherTick, hnil]
    · simp [flusherTick, hb]

/-- C5, witness: the retry behavior on a concrete two-event buffer whose
flush fails. -/
theorem C5_witness :
    (flusherTick (Except.error "db down") [evA, evB]).2 = [evA, evB].take 100 ∧
    (flusherTick (Except.error "db down") [evA, evB]).1 =
      [evA, evB].take 100 ++ [evA, evB].drop 100 ∧
    (flusherTick (Except.error "db down") [evA, evB]).1 = [evA, evB] ∧
    (flusherTick (Except.ok ()) (flusherTick (Except.error "db down") [evA, evB]).1).2 =
      (flusherTick (Except.error "db down") [evA, evB]).2 :=
  C5_buffer_retry [evA, evB] "db down" (Except.ok ()) (by decide)

/-- C6, counterexample: a rule with continuous frequency whose last check
time is set is not evaluated on a scheduler tick ten days later and the
state is unchanged, while the claim requires continuous rules to be
evaluated on every tick. -/
theorem C6_counterexample :
    (scheduledTick envBoth 864000 [contRule] sCont).2 = [] ∧
    (scheduledTick envBoth 864000 [contRule] sCont).1 = sCont := by
  constructor <;> rfl

/-- C6, amended: on a scheduler tick, with pairwise distinct rule ids as in
the source dict registry, the evaluated rules are exactly the enabled
rules that are due; and a rule is due exactly when its last check time is
unset, or its frequency is daily, weekly or monthly with at least 1, 7 or
30 whole days elapsed since the last check; any other frequency string,
including continuous, is due only while the last check time is unset. -/
theorem C6_scheduler_due (env : ChecksEnv) (now : Nat) (rules : List ComplianceRule)
    (s : SchedState) (hnd : (rules.map (fun r => r.rule_id)).Nodup)
    (freq : String) (last : Option Nat) (t : Nat) :
    (scheduledTick env now rules s).2 =
      (rules.filter (fun r =>
        r.enabled && checkDue r.frequency (lcLookup s.last_check_times r.rule_id) now)).map
        (fun r => r.rule_id) ∧
    (checkDue freq last t = true ↔
      (last = none ∨
        (freq = "daily" ∧ 1 ≤ (t - last.getD 0) / 86400) ∨
        (freq = "weekly" ∧ 7 ≤ (t - last.getD 0) / 86400) ∨
        (freq = "monthly" ∧ 30 ≤ (t - last.getD 0) / 86400))) :=
  ⟨scheduledTick_ids env now rules s hnd, checkDue_char freq last t⟩

/-- C6, witness: the amended statement applied to the default rule registry
on a fresh scheduler state, and to the continuous frequency with a set
last check time ten days in the past. -/
theorem C6_witness :
    (scheduledTick envNone 0 defaultRules schedState0).2 =
      (defaultRules.filter (fun r =>
        r.enabled && checkDue r.frequency
          (lcLookup schedState0.last_check_times r.rule_id) 0)).map
        (fun r => r.rule_id) ∧
    (checkDue "continuous" (some 0) 864000 = true ↔
      ((some 0 : Option Nat) = none ∨
        ("continuous" = "daily" ∧ 1 ≤ (864000 - (some 0 : Option Nat).getD 0) / 86400) ∨
        ("continuous" = "weekly" ∧ 7 ≤ (864000 - (some 0 : Option Nat).getD 0) / 86400) ∨
        ("continuous" = "monthly" ∧ 30 ≤ (864000 - (some 0 : Option Nat).getD 0) / 86400))) :=
  C6_scheduler_due envNone 0 defaultRules schedState0 (by decide) "continuous" (some 0) 864000

/-- C7, counterexample: handling the same HIGH-severity violation record,
with the same violation id, twice stores two rows and dispatches two
notifications, while the claim requires exactly one of each. -/
theorem C7_counterexample :
    (handleViolation (handleViolation monState0 violX) violX).stored_violations.length = 2 ∧
    (handleViolation (handleViolation monState0 violX) violX).notified_violations.length = 2 := by
  constructor <;> rfl

/-- C7, amended: the violation handler performs no deduplication by
violation id: handling any HIGH or CRITICAL violation twice appends
exactly two stored rows and two notification dispatches. -/
theorem C7_no_dedup (s : MonitorState) (v : ComplianceViolation)
    (hsev : v.severity = ViolationSeverity.high ∨ v.severity = ViolationSeverity.critical) :
    (handleViolation (handleViolation s v) v).stored_violations =
      s.stored_violations ++ [v, v] ∧
    (handleViolation (handleViolation s v) v).notified_violations =
      s.notified_violations ++ [v, v] := by
  simp [handleViolation, storeViolation, hsev]

/-- C7, witness: the amended statement at a concrete violation and the
empty monitor state. -/
theorem C7_witness :
    (handleViolation (handleViolation monState0 violX) violX).stored_violations =
      monState0.stored_violations ++ [violX, violX] ∧
    (handleViolation (handleViolation monState0 violX) violX).notified_violations =
      monState0.notified_violations ++ [violX, violX] :=
  C7_no_dedup monState0 violX (Or.inl rfl)

/-- C8, counterexample: for two security-violation events that differ only
in timestamp, the event at hour 3 and the event at hour 14 both score
exactly 1 after clamping, so the off-hours score is not strictly
greater. -/
theorem C8_counterexample :
    calculateRiskScore envZero (evAt 10800) = 1 ∧
    calculateRiskScore envZero (evAt 50400) = 1 := by
  constructor <;>
    norm_num [calculateRiskScore, rawRiskScore, eventRiskFactor, hourOf, evAt, envZero]

/-- C8, amended: with non-negative user and frequency risk terms, every
computed risk score lies between 0 and 1, and for two events identical
except for timestamp, at hours 3 and 14, the hour-3 score is strictly
greater than the hour-14 score whenever the unclamped hour-14 sum is below
1; otherwise both scores clamp to 1. -/
theorem C8_risk_scoring (env : RiskEnv) (e : SecurityEvent) (t3 t14 : Nat)
    (h3 : hourOf t3 = 3) (h14 : hourOf t14 = 14)
    (hu : ∀ u, 0 ≤ env.user_risk u)
    (hf : ∀ ty ip uid, 0 ≤ env.frequency_risk ty ip uid)
    (hraw : rawRiskScore env { e with timestamp := t14 } < 1) :
    0 ≤ calculateRiskScore env e ∧ calculateRiskScore env e ≤ 1 ∧
    calculateRiskScore env { e with timestamp := t14 } <
      calculateRiskScore env { e with timestamp := t3 } := by
  have hdelta := raw_offhours_delta env e t3 t14 h3 h14
  refine ⟨le_min (raw_nonneg env e hu hf) (by norm_num), min_le_right _ _, ?_⟩
  rw [calculateRiskScore, calculateRiskScore, hdelta,
    min_eq_left (le_of_lt hraw)]
  rcases le_or_lt (rawRiskScore env { e with timestamp := t14 } + 2 / 10) 1 with hb | hb
  · rw [min_eq_left hb]
    linarith
  · rw [min_eq_right (le_of_lt hb)]
    exact hraw

/-- C8, witness: the amended statement at a concrete login-success event
whose unclamped hour-14 sum is 0.2. -/
theorem C8_witness :
    0 ≤ calculateRiskScore envZero evW ∧ calculateRiskScore envZero evW ≤ 1 ∧
    calculateRiskScore envZero { evW with timestamp := 50400 } <
      calculateRiskScore envZero { evW with timestamp := 10800 } :=
  C8_risk_scoring envZero evW 10800 50400 (by decide) (by decide)
    (fun u => le_refl 0) (fun ty ip uid => le_refl 0)
    (by norm_num [rawRiskScore, eventRiskFactor, hourOf, evW, envZero])

/-- C9, counterexample: a due rule whose check function raises is evaluated
on the tick but its last check time remains unset afterwards, while the
claim requires it to be set to the evaluation start time on exception as
well. -/
theorem C9_counterexample :
    (scheduledTick envBoth 500 [ruleBoom] schedState0).2 = ["r_boom"] ∧
    (scheduledTick envBoth 500 [ruleBoom] schedState0).1.last_check_times = [] := by
  constructor <;> rfl

/-- C9, amended: for a due, enabled rule, the last check time is set to the
tick start time exactly when the check function returns, compliant or not;
when the check raises, the scheduler state is left unchanged, so the time
is never updated before the check function returns. -/
theorem C9_last_check_update (env : ChecksEnv) (now : Nat) (s : SchedState)
    (r1 r2 : ComplianceRule) (msg : String) (b : Bool) (d : Evidence)
    (hen1 : r1.enabled = true)
    (hdue1 : checkDue r1.frequency (lcLookup s.last_check_times r1.rule_id) now = true)
    (hrun1 : executeRuleCheck env r1 = Except.error msg)
    (hen2 : r2.enabled = true)
    (hdue2 : checkDue r2.frequency (lcLookup s.last_check_times r2.rule_id) now = true)
    (hrun2 : executeRuleCheck env r2 = Except.ok (b, d)) :
    (processRule env now s r1).1.last_check_times = s.last_check_times ∧
    lcLookup (processRule env now s r2).1.last_check_times r2.rule_id = some now := by
  constructor
  · simp [processRule, hen1, hdue1, hrun1]
  · cases b <;> simp [processRule, hen2, hdue2, hrun2, lcLookup_lcSet_self]

/-- C9, witness: the amended statement applied to the raising rule and the
compliant rule at tick time 500 on a fresh scheduler state. -/
theorem C9_witness :
    (processRule envBoth 500 schedState0 ruleBoom).1.last_check_times =
      schedState0.last_check_times ∧
    lcLookup (processRule envBoth 500 schedState0 ruleOk).1.last_check_times
      ruleOk.rule_id = some 500 :=
  C9_last_check_update envBoth 500 schedState0 ruleBoom ruleOk "boom" true [] rfl rfl rfl
    rfl rfl rfl

/-- C10: whenever check_compliance returns a result, its overall status is
NON_COMPLIANT if any checked framework is NON_COMPLIANT, otherwise
PARTIALLY_COMPLIANT if any checked framework is PARTIALLY_COMPLIANT,
otherwise COMPLIANT, and its violations list is the concatenation of every
checked framework violations in order. -/
theorem C10_overall_aggregation (env : ChecksEnv) (rules : List ComplianceRule)
    (recs : List ComplianceViolation → List String) (fwOpt : Option ComplianceFramework)
    (now : Nat) (s : MonitorState) (r : ComplianceResults) (s1 : MonitorState)
    (h : checkCompliance env rules recs fwOpt now s = Except.ok (r, s1)) :
    r.overall_status = overallOfSpec (r.frameworks.map (fun p => p.2.status)) ∧
    r.violations = (r.frameworks.map (fun p => p.2.violations)).flatten := by
  unfold checkCompliance at h
  cases hcc : ccLoop env rules now (checkedFrameworks fwOpt)
      ComplianceStatus.compliant [] [] s with
  | error e => rw [hcc] at h; cases h
  | ok out =>
    obtain ⟨overall, frs, vs, s2⟩ := out
    rw [hcc, Except.ok.injEq, Prod.mk.injEq] at h
    obtain ⟨hr, hs1⟩ := h
    obtain ⟨nf, hfrs, ho, hvs⟩ := ccLoop_char env rules now _ _ _ _ _ _ _ _ _ hcc
    subst hr
    simp only [List.nil_append] at hfrs hvs
    subst hfrs
    subst hvs
    exact ⟨ho.trans (foldl_updateOverall_compliant _), rfl⟩

/-- C10, witness: the aggregation applied to a concrete run over one
compliant and one non-compliant HIPAA rule. -/
theorem C10_witness :
    (crPart (checkComplianceN envBoth [ruleOk, ruleFail] (fun _ => [])
        (some ComplianceFramework.hipaa) 0 monState0)).overall_status =
      overallOfSpec ((crPart (checkComplianceN envBoth [ruleOk, ruleFail] (fun _ => [])
        (some ComplianceFramework.hipaa) 0 monState0)).frameworks.map
          (fun p => p.2.status)) ∧
    (crPart (checkComplianceN envBoth [ruleOk, ruleFail] (fun _ => [])
        (some ComplianceFramework.hipaa) 0 monState0)).violations =
      ((crPart (checkComplianceN envBoth [ruleOk, ruleFail] (fun _ => [])
        (some ComplianceFramework.hipaa) 0 monState0)).frameworks.map
          (fun p => p.2.violations)).flatten :=
  C10_overall_aggregation envBoth [ruleOk, ruleFail] (fun _ => [])
    (some ComplianceFramework.hipaa) 0 monState0
    (crPart (checkComplianceN envBoth [ruleOk, ruleFail] (fun _ => [])
      (some ComplianceFramework.hipaa) 0 monState0))
    (crState (checkComplianceN envBoth [ruleOk, ruleFail] (fun _ => [])
      (some ComplianceFramework.hipaa) 0 monState0))
    (by rw [checkCompliance_eq_checkComplianceN]; rfl)

end MediMind
